import Mathlib

/-
Shallow embedding of app/drivers/led_strip/is31fl3741/is31fl3741.c (ZMK).

The I2C bus is modelled by an oracle `bus : Nat → Bool` telling whether the
k-th bus transaction issued by the driver succeeds.  Every driver function
threads the transaction counter `k` and accumulates a trace of the bus
operations it attempted (each single-register write and each burst write is
one transaction).  Machine bytes are modelled as `Nat`; the platform size
type has width `w`, passed explicitly where the code uses `size_mul_overflow`.
-/

/-- One I2C transaction as seen on the wire: a single register write
(`i2c_reg_write_byte`) or a burst write (`i2c_burst_write`). -/
inductive BusOp where
  | regWrite (addr value : Nat)
  | burstWrite (start_addr : Nat) (bytes : List Nat)
deriving DecidableEq, Repr

/-- Bus oracle: success/failure of each transaction, by issue order. -/
def Bus : Type := Nat → Bool

/-- Result of running a driver routine against the bus: the returned error
code, the next transaction index, and the trace of attempted operations. -/
structure BusResult where
  res : Int
  cnt : Nat
  trace : List BusOp
deriving DecidableEq, Repr

def EIO_ERR : Int := 5
def ENOMEM : Int := 12
def ENODEV : Int := 19

def IS31FL3741_BUFFER_SIZE : Nat := 39 * 9
def IS31FL3741_BUFFER_PAGE_BREAK : Nat := 0xb4
def IS31FL3741_REG_PS : Nat := 0xfd
def IS31FL3741_REG_PSWL : Nat := 0xfe
def IS31FL3741_PSWL_ENABLE : Nat := 0xc5
def IS31FL3741_PAGE_PWM_A : Nat := 0x00
def IS31FL3741_PAGE_PWM_B : Nat := 0x01
def IS31FL3741_PAGE_SCALING_A : Nat := 0x02
def IS31FL3741_PAGE_SCALING_B : Nat := 0x03
def IS31FL3741_PAGE_FUNCTION : Nat := 0x04

/-- `struct is31fl3741_config` (the fields the core logic reads). -/
structure Config where
  px_buffer_size : Nat
  gcc : Nat
  sws : Nat
  rgb_map : List Nat
  gamma : List Nat
  scaling_red : Nat
  scaling_green : Nat
  scaling_blue : Nat
deriving DecidableEq, Repr

/-- `struct is31fl3741_data`: the mutable per-instance pixel buffer. -/
structure Data where
  px_buffer : List Nat
deriving DecidableEq, Repr

/-- `struct led_rgb`: one pixel, three 8-bit intensities. -/
structure Pixel where
  r : Nat
  g : Nat
  b : Nat
deriving DecidableEq, Repr

/-- `is31fl3741_reg_write`: one register write; `-EIO_ERR` on bus failure. -/
def is31fl3741_reg_write (bus : Bus) (k : Nat) (addr value : Nat) : BusResult :=
  { res := if bus k then 0 else -EIO_ERR
    cnt := k + 1
    trace := [BusOp.regWrite addr value] }

/-- `is31fl3741_reg_burst_write`: one burst write; `-EIO_ERR` on bus failure. -/
def is31fl3741_reg_burst_write (bus : Bus) (k : Nat) (start_addr : Nat)
    (bytes : List Nat) : BusResult :=
  { res := if bus k then 0 else -EIO_ERR
    cnt := k + 1
    trace := [BusOp.burstWrite start_addr bytes] }

/-- `is31fl3741_set_page`: unlock write then page-select write; the second
write is only attempted when the first succeeded. -/
def is31fl3741_set_page (bus : Bus) (k : Nat) (page_addr : Nat) : BusResult :=
  let o1 := is31fl3741_reg_write bus k IS31FL3741_REG_PSWL IS31FL3741_PSWL_ENABLE
  if o1.res ≠ 0 then { res := -EIO_ERR, cnt := o1.cnt, trace := o1.trace }
  else
    let o2 := is31fl3741_reg_write bus o1.cnt IS31FL3741_REG_PS page_addr
    if o2.res ≠ 0 then { res := -EIO_ERR, cnt := o2.cnt, trace := o1.trace ++ o2.trace }
    else { res := 0, cnt := o2.cnt, trace := o1.trace ++ o2.trace }

/-- `size_mul_overflow a 3` on a `w`-bit size type: the overflow flag and the
wrapped product. -/
def size_mul_overflow (w a b : Nat) : Bool × Nat :=
  (decide (2 ^ w ≤ a * b), a * b % 2 ^ w)

/-- `num_pixels_ok`: the pixel count times 3 neither overflows `size_t` nor
exceeds the buffer capacity. -/
def num_pixels_ok (w : Nat) (config : Config) (num_pixels : Nat) : Bool :=
  let p := size_mul_overflow w num_pixels 3
  !p.1 && decide (p.2 ≤ config.px_buffer_size)

/-- `is31fl3741_strip_update_channels`: capacity check, then a burst write to
page PWM-A of the first `min(num_channels, 0xB4)` bytes, and when the count
crosses the page break and the first burst succeeded, a second burst to page
PWM-B of the remainder.  The results of both `set_page` calls are discarded,
exactly as in the C source. -/
def is31fl3741_strip_update_channels (bus : Bus) (k : Nat) (config : Config)
    (data : Data) (channels : List Nat) (num_channels : Nat) : Data × BusResult :=
  if config.px_buffer_size < num_channels then
    (data, { res := -ENOMEM, cnt := k, trace := [] })
  else
    let p1 := is31fl3741_set_page bus k IS31FL3741_PAGE_PWM_A
    let o1 := is31fl3741_reg_burst_write bus p1.cnt 0x00
        (channels.take (if num_channels ≤ IS31FL3741_BUFFER_PAGE_BREAK then
          num_channels else IS31FL3741_BUFFER_PAGE_BREAK))
    if o1.res ≠ 0 ∨ num_channels ≤ IS31FL3741_BUFFER_PAGE_BREAK then
      (data, { res := o1.res, cnt := o1.cnt, trace := p1.trace ++ o1.trace })
    else
      let p2 := is31fl3741_set_page bus o1.cnt IS31FL3741_PAGE_PWM_B
      let o2 := is31fl3741_reg_burst_write bus p2.cnt 0x00
          ((channels.drop 0xb4).take (num_channels - 0xb4))
      (data, { res := o2.res, cnt := o2.cnt
               trace := p1.trace ++ o1.trace ++ p2.trace ++ o2.trace })

/-- The pixel loop of `is31fl3741_strip_update_rgb`: for each pixel, write the
gamma-corrected red, green, blue values at the next three channel-map
offsets. -/
def map_pixels (config : Config) (buf : List Nat) (pixels : List Pixel)
    (j : Nat) : List Nat :=
  match pixels with
  | [] => buf
  | px :: rest =>
    let b1 := buf.set (config.rgb_map.getD j 0) (config.gamma.getD px.r 0)
    let b2 := b1.set (config.rgb_map.getD (j + 1) 0) (config.gamma.getD px.g 0)
    let b3 := b2.set (config.rgb_map.getD (j + 2) 0) (config.gamma.getD px.b 0)
    map_pixels config b3 rest (j + 3)

/-- `is31fl3741_strip_update_rgb`: size check, pixel mapping into the device
buffer, then delegation of the full buffer to the channel writer. -/
def is31fl3741_strip_update_rgb (w : Nat) (bus : Bus) (k : Nat) (config : Config)
    (data : Data) (pixels : List Pixel) (num_pixels : Nat) : Data × BusResult :=
  if !num_pixels_ok w config num_pixels then
    (data, { res := -ENOMEM, cnt := k, trace := [] })
  else
    let buf := map_pixels config data.px_buffer (pixels.take num_pixels) 0
    is31fl3741_strip_update_channels bus k config { px_buffer := buf } buf
      config.px_buffer_size

/-- The scaling loop of `is31fl3741_init`: for `i = 0, 3, 6, ...` below the
buffer size, write the red/green/blue scaling bytes at the channel-map
offsets `i, i+1, i+2`. -/
def scale_fill (config : Config) (buf : List Nat) (i : Nat) : List Nat :=
  if i < config.px_buffer_size then
    let b1 := buf.set (config.rgb_map.getD i 0) config.scaling_red
    let b2 := b1.set (config.rgb_map.getD (i + 1) 0) config.scaling_green
    let b3 := b2.set (config.rgb_map.getD (i + 2) 0) config.scaling_blue
    scale_fill config b3 (i + 3)
  else buf
termination_by config.px_buffer_size - i
decreasing_by omega

/-- The final loop of `is31fl3741_init`: zero the first `n` buffer bytes, in
increasing index order. -/
def zero_loop (buf : List Nat) (n : Nat) : List Nat :=
  match n with
  | 0 => buf
  | m + 1 => (zero_loop buf m).set m 0

/-- `is31fl3741_init`: handle lookups, chip-enable pin, function-page
selection, reset, function-page reselection, mode and gain writes, scaling
fill and the two scaling bursts, then the in-memory zeroing of the buffer.
The return values of the reset/mode/gain writes, of the scaling page
selections and of the scaling burst writes are discarded, exactly as in the
C source; `i2c_found`, `gpio_found` and `pin_set_ok` model resolution of the
two device handles and the result of `gpio_pin_set`. -/
def is31fl3741_init (bus : Bus) (i2c_found gpio_found pin_set_ok : Bool)
    (config : Config) (data : Data) : Data × BusResult :=
  if !i2c_found then (data, { res := -ENODEV, cnt := 0, trace := [] })
  else if !gpio_found then (data, { res := -ENODEV, cnt := 0, trace := [] })
  else if !pin_set_ok then (data, { res := -EIO_ERR, cnt := 0, trace := [] })
  else
    let p1 := is31fl3741_set_page bus 0 IS31FL3741_PAGE_FUNCTION
    if p1.res ≠ 0 then (data, { res := -EIO_ERR, cnt := p1.cnt, trace := p1.trace })
    else
      let o1 := is31fl3741_reg_write bus p1.cnt 0x3f 0xae
      let p2 := is31fl3741_set_page bus o1.cnt IS31FL3741_PAGE_FUNCTION
      if p2.res ≠ 0 then
        (data, { res := -EIO_ERR, cnt := p2.cnt, trace := p1.trace ++ o1.trace ++ p2.trace })
      else
        let o2 := is31fl3741_reg_write bus p2.cnt 0x00
            ((config.sws <<< 4) ||| (0x01 <<< 3) ||| 0x01)
        let o3 := is31fl3741_reg_write bus o2.cnt 0x01 config.gcc
        let buf := scale_fill config data.px_buffer 0
        let p3 := is31fl3741_set_page bus o3.cnt IS31FL3741_PAGE_SCALING_A
        let o4 := is31fl3741_reg_burst_write bus p3.cnt 0x00 (buf.take 0xb4)
        let p4 := is31fl3741_set_page bus o4.cnt IS31FL3741_PAGE_SCALING_B
        let o5 := is31fl3741_reg_burst_write bus p4.cnt 0x00
            ((buf.drop 0xb4).take 0xab)
        ({ px_buffer := zero_loop buf config.px_buffer_size },
         { res := 0, cnt := o5.cnt
           trace := p1.trace ++ o1.trace ++ p2.trace ++ o2.trace ++ o3.trace
             ++ p3.trace ++ o4.trace ++ p4.trace ++ o5.trace })

/-- The `IS31FL3741_GCC` macro: global current-gain register value from the
external resistor value and the per-LED maximum current. -/
def IS31FL3741_GCC (r_ext led_max_current : Nat) : Nat :=
  (r_ext * led_max_current * 256 * 256) / (383 * 255)

/-- Transaction index right after a `set_page` that started at index `k`
(the page select issues two transactions, or one when the unlock write
already failed). -/
def page_select_cnt (bus : Bus) (k : Nat) : Nat :=
  if bus k then k + 2 else k + 1

/-- Trace left by a `set_page`: the unlock write, then the page-select write
when the unlock write succeeded. -/
def page_select_trace (page : Nat) (ok1 : Bool) : List BusOp :=
  if ok1 then
    [BusOp.regWrite IS31FL3741_REG_PSWL IS31FL3741_PSWL_ENABLE,
     BusOp.regWrite IS31FL3741_REG_PS page]
  else [BusOp.regWrite IS31FL3741_REG_PSWL IS31FL3741_PSWL_ENABLE]

/-- Bus operations other than the page-select register writes: the
configuration/data writes a trace contains. -/
def non_page_select : BusOp → Bool
  | BusOp.regWrite addr _ =>
      !(addr == IS31FL3741_REG_PSWL || addr == IS31FL3741_REG_PS)
  | BusOp.burstWrite _ _ => true

lemma set_page_eq (bus : Bus) (k page : Nat) :
    is31fl3741_set_page bus k page =
      { res := if bus k && bus (k + 1) then 0 else -EIO_ERR
        cnt := page_select_cnt bus k
        trace := page_select_trace page (bus k) } := by
  unfold is31fl3741_set_page is31fl3741_reg_write page_select_cnt page_select_trace
  cases hb : bus k <;> cases hb2 : bus (k + 1) <;>
    simp [hb, hb2, EIO_ERR]


/- Concrete instances used by witnesses. -/

/-- A bus on which every transaction succeeds. -/
def busT : Bus := fun _ => true

/-- A devicetree-shaped configuration with the fixed 351-byte capacity. -/
def cfg351 : Config :=
  { px_buffer_size := 351, gcc := 7, sws := 2, rgb_map := [], gamma := []
    scaling_red := 1, scaling_green := 2, scaling_blue := 3 }

/-- Claim C8: for `count > capacity`, `write_channels` fails with `-ENOMEM`
before any bus activity: no page selection and no burst write is issued, and
the device data is untouched. -/
theorem update_channels_capacity_error (bus : Bus) (k : Nat) (config : Config)
    (data : Data) (channels : List Nat) (num_channels : Nat)
    (h : config.px_buffer_size < num_channels) :
    is31fl3741_strip_update_channels bus k config data channels num_channels =
      (data, { res := -ENOMEM, cnt := k, trace := [] }) := by
  unfold is31fl3741_strip_update_channels
  rw [if_pos h]

theorem update_channels_capacity_error_witness :
    cfg351.px_buffer_size < 400 ∧
      is31fl3741_strip_update_channels busT 0 cfg351 ⟨[]⟩ [] 400 =
        (⟨[]⟩, { res := -ENOMEM, cnt := 0, trace := [] }) :=
  ⟨by decide, update_channels_capacity_error busT 0 cfg351 ⟨[]⟩ [] 400 (by decide)⟩

/-- Claim C9: the global current-gain value is
`(resistor * max_current * 65536) / (383 * 255)` with integer truncation, and
resistor 1 with max current 5 gives 3. -/
theorem gcc_formula_exact :
    (∀ r m : Nat, IS31FL3741_GCC r m = (r * m * 65536) / (383 * 255)) ∧
      IS31FL3741_GCC 1 5 = 3 := by
  constructor
  · intro r m
    unfold IS31FL3741_GCC
    norm_num [Nat.mul_assoc]
  · decide

/-- Claim C10: `write_channels` never writes the driver's own device state:
for every buffer and count the returned `Data` is the one passed in, so the
in-memory pixel buffer is unchanged (the configuration is immutable by
construction). -/
theorem update_channels_preserves_device_state (bus : Bus) (k : Nat)
    (config : Config) (data : Data) (channels : List Nat) (num_channels : Nat) :
    (is31fl3741_strip_update_channels bus k config data channels num_channels).1
      = data := by
  unfold is31fl3741_strip_update_channels
  dsimp only
  repeat' split
  all_goals rfl

/-- Claim C3: for `count ≤ 0xB4` (and within capacity), `write_channels`
issues exactly one burst write, preceded by the PWM-A page selection, of
length `count` from offset 0, and returns the result of that burst write. -/
theorem update_channels_single_burst (bus : Bus) (k : Nat) (config : Config)
    (data : Data) (channels : List Nat) (num_channels : Nat)
    (h1 : num_channels ≤ IS31FL3741_BUFFER_PAGE_BREAK)
    (h2 : num_channels ≤ config.px_buffer_size)
    (h3 : num_channels ≤ channels.length) :
    is31fl3741_strip_update_channels bus k config data channels num_channels =
      (data,
        { res := if bus (page_select_cnt bus k) then 0 else -EIO_ERR
          cnt := page_select_cnt bus k + 1
          trace := page_select_trace IS31FL3741_PAGE_PWM_A (bus k)
            ++ [BusOp.burstWrite 0x00 (channels.take num_channels)] })
    ∧ (channels.take num_channels).length = num_channels := by
  constructor
  · unfold is31fl3741_strip_update_channels
    rw [if_neg (by omega), set_page_eq]
    simp only [is31fl3741_reg_burst_write, if_pos h1]
    rw [if_pos (Or.inr h1)]
  · simp [List.length_take, Nat.min_eq_left h3]

theorem update_channels_single_burst_witness :
    (2 : Nat) ≤ IS31FL3741_BUFFER_PAGE_BREAK ∧ (2 : Nat) ≤ cfg351.px_buffer_size ∧
      (2 : Nat) ≤ [5, 6].length ∧
      (is31fl3741_strip_update_channels busT 0 cfg351 ⟨[]⟩ [5, 6] 2 =
        (⟨[]⟩,
          { res := if busT (page_select_cnt busT 0) then 0 else -EIO_ERR
            cnt := page_select_cnt busT 0 + 1
            trace := page_select_trace IS31FL3741_PAGE_PWM_A (busT 0)
              ++ [BusOp.burstWrite 0x00 ([5, 6].take 2)] })
        ∧ ([5, 6].take 2).length = 2) :=
  ⟨by decide, by decide, by decide,
    update_channels_single_burst busT 0 cfg351 ⟨[]⟩ [5, 6] 2
      (by decide) (by decide) (by decide)⟩

/-- Claim C2: for `0xB4 < count ≤ capacity`, `write_channels` issues the
PWM-A page selection and a burst of the first `0xB4` buffer bytes; when that
burst transaction succeeds it issues the PWM-B page selection and a burst of
the `count − 0xB4` bytes from buffer offset `0xB4`, returning the second
burst's result; when the first burst fails, `-EIO` is returned and no second
burst appears in the trace. -/
theorem update_channels_page_split (bus : Bus) (k : Nat) (config : Config)
    (data : Data) (channels : List Nat) (num_channels : Nat)
    (h1 : IS31FL3741_BUFFER_PAGE_BREAK < num_channels)
    (h2 : num_channels ≤ config.px_buffer_size)
    (h3 : num_channels ≤ channels.length) :
    is31fl3741_strip_update_channels bus k config data channels num_channels =
      (data,
        if bus (page_select_cnt bus k) then
          { res := if bus (page_select_cnt bus (page_select_cnt bus k + 1))
              then 0 else -EIO_ERR
            cnt := page_select_cnt bus (page_select_cnt bus k + 1) + 1
            trace := page_select_trace IS31FL3741_PAGE_PWM_A (bus k)
              ++ [BusOp.burstWrite 0x00
                    (channels.take IS31FL3741_BUFFER_PAGE_BREAK)]
              ++ page_select_trace IS31FL3741_PAGE_PWM_B
                    (bus (page_select_cnt bus k + 1))
              ++ [BusOp.burstWrite 0x00
                    ((channels.drop 0xb4).take (num_channels - 0xb4))] }
        else
          { res := -EIO_ERR
            cnt := page_select_cnt bus k + 1
            trace := page_select_trace IS31FL3741_PAGE_PWM_A (bus k)
              ++ [BusOp.burstWrite 0x00
                    (channels.take IS31FL3741_BUFFER_PAGE_BREAK)] })
    ∧ (channels.take IS31FL3741_BUFFER_PAGE_BREAK).length
        = IS31FL3741_BUFFER_PAGE_BREAK
    ∧ ((channels.drop 0xb4).take (num_channels - 0xb4)).length
        = num_channels - 0xb4 := by
  refine ⟨?_, ?_, ?_⟩
  · unfold is31fl3741_strip_update_channels
    rw [if_neg (by omega), set_page_eq]
    simp only [is31fl3741_reg_burst_write, if_neg (by omega : ¬(num_channels ≤ IS31FL3741_BUFFER_PAGE_BREAK))]
    cases hfb : bus (page_select_cnt bus k) with
    | false =>
      rw [if_pos (Or.inl (by norm_num [EIO_ERR]))]
      simp
    | true =>
      rw [if_neg (by push_neg; exact ⟨by norm_num, by omega⟩), set_page_eq]
      simp
  · have h180 : (180 : Nat) < num_channels := h1
    have h5 : IS31FL3741_BUFFER_PAGE_BREAK ≤ channels.length := by
      show (180 : Nat) ≤ _
      omega
    rw [List.length_take, Nat.min_eq_left h5]
  · have h180 : (180 : Nat) < num_channels := h1
    have h6 : num_channels - 0xb4 ≤ (channels.drop 0xb4).length := by
      rw [List.length_drop]
      omega
    rw [List.length_take, Nat.min_eq_left h6]

theorem update_channels_page_split_witness :
    IS31FL3741_BUFFER_PAGE_BREAK < 181 ∧ (181 : Nat) ≤ cfg351.px_buffer_size ∧
      (181 : Nat) ≤ (List.replicate 181 (9 : Nat)).length ∧
      (is31fl3741_strip_update_channels busT 0 cfg351 ⟨[]⟩
          (List.replicate 181 9) 181 =
        (⟨[]⟩,
          if busT (page_select_cnt busT 0) then
            { res := if busT (page_select_cnt busT (page_select_cnt busT 0 + 1))
                then 0 else -EIO_ERR
              cnt := page_select_cnt busT (page_select_cnt busT 0 + 1) + 1
              trace := page_select_trace IS31FL3741_PAGE_PWM_A (busT 0)
                ++ [BusOp.burstWrite 0x00
                      ((List.replicate 181 9).take IS31FL3741_BUFFER_PAGE_BREAK)]
                ++ page_select_trace IS31FL3741_PAGE_PWM_B
                      (busT (page_select_cnt busT 0 + 1))
                ++ [BusOp.burstWrite 0x00
                      (((List.replicate 181 (9 : Nat)).drop 0xb4).take (181 - 0xb4))] }
          else
            { res := -EIO_ERR
              cnt := page_select_cnt busT 0 + 1
              trace := page_select_trace IS31FL3741_PAGE_PWM_A (busT 0)
                ++ [BusOp.burstWrite 0x00
                      ((List.replicate 181 9).take IS31FL3741_BUFFER_PAGE_BREAK)] })
      ∧ ((List.replicate 181 (9 : Nat)).take IS31FL3741_BUFFER_PAGE_BREAK).length
          = IS31FL3741_BUFFER_PAGE_BREAK
      ∧ (((List.replicate 181 (9 : Nat)).drop 0xb4).take (181 - 0xb4)).length
          = 181 - 0xb4) :=
  ⟨by decide, by decide, by rw [List.length_replicate],
    update_channels_page_split busT 0 cfg351 ⟨[]⟩ (List.replicate 181 9) 181
      (by decide) (by decide) (by rw [List.length_replicate])⟩

/-- Claim C4: when `num_pixels * 3` overflows the `w`-bit size type or
exceeds the capacity, `update_rgb` fails with `-ENOMEM`, issues no bus
operation and leaves the device buffer unchanged. -/
theorem update_rgb_capacity_error (w : Nat) (bus : Bus) (k : Nat)
    (config : Config) (data : Data) (pixels : List Pixel) (num_pixels : Nat)
    (h : 2 ^ w ≤ num_pixels * 3 ∨ config.px_buffer_size < num_pixels * 3) :
    is31fl3741_strip_update_rgb w bus k config data pixels num_pixels =
      (data, { res := -ENOMEM, cnt := k, trace := [] }) := by
  have hok : num_pixels_ok w config num_pixels = false := by
    unfold num_pixels_ok size_mul_overflow
    rcases h with h | h
    · simp [h]
    · by_cases hov : 2 ^ w ≤ num_pixels * 3
      · simp [hov]
      · push_neg at hov
        simp [Nat.mod_eq_of_lt hov, hov]
        omega
  unfold is31fl3741_strip_update_rgb
  rw [hok]
  simp

theorem update_rgb_capacity_error_witness :
    (2 ^ 4 ≤ 6 * 3 ∨ cfg351.px_buffer_size < 6 * 3) ∧
      is31fl3741_strip_update_rgb 4 busT 0 cfg351 ⟨[]⟩ [] 6 =
        (⟨[]⟩, { res := -ENOMEM, cnt := 0, trace := [] }) :=
  ⟨Or.inl (by decide),
    update_rgb_capacity_error 4 busT 0 cfg351 ⟨[]⟩ [] 6 (Or.inl (by decide))⟩

/-- A bus on which only transaction 0 fails. -/
def busNot0 : Bus := fun t => decide (t ≠ 0)

/-- A bus on which only transaction 2 fails. -/
def busNot2 : Bus := fun t => decide (t ≠ 2)

/-- A bus on which only transactions 0, 1, 3 and 4 succeed. -/
def busOnly0134 : Bus := fun t => decide (t = 0 ∨ t = 1 ∨ t = 3 ∨ t = 4)

/-- A small three-channel configuration. -/
def cfg3 : Config :=
  { px_buffer_size := 3, gcc := 9, sws := 1, rgb_map := [0, 1, 2], gamma := []
    scaling_red := 4, scaling_green := 5, scaling_blue := 6 }

/-- Claim C6 counterexample: with a bus that fails exactly the first
transaction (the PSWL unlock write of the PWM-A page selection) and a
one-byte update, the page selection itself reports `-EIO`, yet
`write_channels` returns 0 — the page-selection error is silently
swallowed. -/
theorem update_channels_swallows_page_select_error :
    (is31fl3741_set_page busNot0 0 IS31FL3741_PAGE_PWM_A).res = -EIO_ERR
    ∧ (is31fl3741_strip_update_channels busNot0 0 cfg351 ⟨[]⟩ [5] 1).2.res = 0 := by
  decide

/-- Claim C6 amended: for `count ≤ capacity` the result of `write_channels`
is determined by the burst-write transactions alone — 0 or `-EIO` according
to the success of the first burst (and, past the page break, the second
burst); failures of the four page-selection register writes are never
propagated. -/
theorem update_channels_result_from_bursts_only (bus : Bus) (k : Nat)
    (config : Config) (data : Data) (channels : List Nat) (num_channels : Nat)
    (h : num_channels ≤ config.px_buffer_size) :
    (is31fl3741_strip_update_channels bus k config data channels
        num_channels).2.res =
      if bus (page_select_cnt bus k) then
        if num_channels ≤ IS31FL3741_BUFFER_PAGE_BREAK then 0
        else if bus (page_select_cnt bus (page_select_cnt bus k + 1)) then 0
        else -EIO_ERR
      else -EIO_ERR := by
  unfold is31fl3741_strip_update_channels is31fl3741_reg_burst_write
  rw [if_neg (by omega), set_page_eq]
  cases hfb : bus (page_select_cnt bus k) <;>
    by_cases hn : num_channels ≤ IS31FL3741_BUFFER_PAGE_BREAK <;>
      simp [hfb, hn, EIO_ERR, set_page_eq]

theorem update_channels_result_from_bursts_only_witness :
    (1 : Nat) ≤ cfg351.px_buffer_size ∧
      (is31fl3741_strip_update_channels busNot0 0 cfg351 ⟨[]⟩ [5] 1).2.res =
        (if busNot0 (page_select_cnt busNot0 0) then
          if (1 : Nat) ≤ IS31FL3741_BUFFER_PAGE_BREAK then 0
          else if busNot0 (page_select_cnt busNot0 (page_select_cnt busNot0 0 + 1))
            then 0 else -EIO_ERR
        else -EIO_ERR) :=
  ⟨by decide,
    update_channels_result_from_bursts_only busNot0 0 cfg351 ⟨[]⟩ [5] 1 (by decide)⟩

/-- Claim C5 counterexample: with a bus that fails exactly transaction 2 —
which is the reset register write `0x3f := 0xae`, issued right after the two
function-page-selection writes — the reset write reports `-EIO`, yet
`is31fl3741_init` returns 0: the reset error is not propagated. -/
theorem init_swallows_reset_write_error :
    (is31fl3741_reg_write busNot2 2 0x3f 0xae).res = -EIO_ERR
    ∧ (is31fl3741_init busNot2 true true true cfg3 ⟨[7, 7, 7]⟩).2.res = 0 := by
  constructor
  · decide
  · have hb0 : busNot2 0 = true := rfl
    have hb1 : busNot2 1 = true := rfl
    have hb3 : busNot2 3 = true := rfl
    have hb4 : busNot2 4 = true := rfl
    unfold is31fl3741_init is31fl3741_reg_write
    simp [set_page_eq, hb0, hb1, hb3, hb4, page_select_cnt]

/-- Claim C5 amended: `is31fl3741_init` aborts with the first error of the
handle lookups, of the chip-enable pin write and of the two function-page
selections, but the results of the reset write, the operating-mode write,
the current-gain write, the scaling page selections and the scaling burst
writes are discarded: whenever the four function-page-selection
transactions (indices 0, 1, 3, 4) succeed, the call returns 0 no matter
what every other bus transaction does. -/
theorem init_success_despite_config_write_failures (bus : Bus)
    (config : Config) (data : Data) (hb0 : bus 0 = true) (hb1 : bus 1 = true)
    (hb3 : bus 3 = true) (hb4 : bus 4 = true) :
    (is31fl3741_init bus true true true config data).2.res = 0 := by
  unfold is31fl3741_init is31fl3741_reg_write
  simp [set_page_eq, hb0, hb1, hb3, hb4, page_select_cnt]

theorem init_success_despite_config_write_failures_witness :
    busOnly0134 0 = true ∧ busOnly0134 1 = true ∧ busOnly0134 3 = true ∧
      busOnly0134 4 = true ∧
      (is31fl3741_init busOnly0134 true true true cfg3 ⟨[7, 7, 7]⟩).2.res = 0 :=
  ⟨rfl, rfl, rfl, rfl,
    init_success_despite_config_write_failures busOnly0134 cfg3 ⟨[7, 7, 7]⟩
      rfl rfl rfl rfl⟩

lemma scale_fill_length_fuel (config : Config) :
    ∀ (fuel : Nat) (buf : List Nat) (i : Nat),
      config.px_buffer_size - i ≤ fuel →
        (scale_fill config buf i).length = buf.length := by
  intro fuel
  induction fuel with
  | zero =>
    intro buf i h
    rw [scale_fill, if_neg (by omega)]
  | succ f ih =>
    intro buf i h
    rw [scale_fill]
    by_cases hi : i < config.px_buffer_size
    · rw [if_pos hi]
      rw [ih _ (i + 3) (by omega)]
      simp
    · rw [if_neg hi]

lemma scale_fill_length (config : Config) (buf : List Nat) (i : Nat) :
    (scale_fill config buf i).length = buf.length :=
  scale_fill_length_fuel config _ buf i le_rfl

lemma zero_loop_eq (buf : List Nat) :
    ∀ n, n ≤ buf.length → zero_loop buf n = List.replicate n 0 ++ buf.drop n := by
  intro n
  induction n with
  | zero => simp [zero_loop]
  | succ m ih =>
    intro h
    rw [zero_loop, ih (by omega)]
    rw [List.set_append_right _ _ (by simp), List.length_replicate, Nat.sub_self]
    rw [List.drop_eq_getElem_cons (by omega : m < buf.length)]
    rw [List.set_cons_zero, List.replicate_succ', List.append_assoc,
      List.singleton_append]

lemma zero_loop_full (buf : List Nat) (n : Nat) (h : buf.length = n) :
    zero_loop buf n = List.replicate n 0 := by
  subst h
  rw [zero_loop_eq buf _ le_rfl]
  simp

lemma init_all_ok_eq (bus : Bus) (config : Config) (data : Data)
    (hbus : ∀ t, bus t = true) :
    is31fl3741_init bus true true true config data =
      (⟨zero_loop (scale_fill config data.px_buffer 0) config.px_buffer_size⟩,
       { res := 0, cnt := 13
         trace := [BusOp.regWrite IS31FL3741_REG_PSWL IS31FL3741_PSWL_ENABLE,
           BusOp.regWrite IS31FL3741_REG_PS IS31FL3741_PAGE_FUNCTION,
           BusOp.regWrite 0x3f 0xae,
           BusOp.regWrite IS31FL3741_REG_PSWL IS31FL3741_PSWL_ENABLE,
           BusOp.regWrite IS31FL3741_REG_PS IS31FL3741_PAGE_FUNCTION,
           BusOp.regWrite 0x00 ((config.sws <<< 4) ||| (0x01 <<< 3) ||| 0x01),
           BusOp.regWrite 0x01 config.gcc,
           BusOp.regWrite IS31FL3741_REG_PSWL IS31FL3741_PSWL_ENABLE,
           BusOp.regWrite IS31FL3741_REG_PS IS31FL3741_PAGE_SCALING_A,
           BusOp.burstWrite 0x00 ((scale_fill config data.px_buffer 0).take 0xb4),
           BusOp.regWrite IS31FL3741_REG_PSWL IS31FL3741_PSWL_ENABLE,
           BusOp.regWrite IS31FL3741_REG_PS IS31FL3741_PAGE_SCALING_B,
           BusOp.burstWrite 0x00
             (((scale_fill config data.px_buffer 0).drop 0xb4).take 0xab)] }) := by
  unfold is31fl3741_init is31fl3741_reg_write is31fl3741_reg_burst_write
  simp [set_page_eq, hbus, page_select_cnt, page_select_trace]

/-- Claim C7: on the all-success path, `is31fl3741_init` issues its
non-page-select register writes in the fixed order reset, operating mode,
global current gain, scaling-A burst, scaling-B burst; the scaling-A burst
carries `0xB4` bytes and the scaling-B burst `capacity − 0xB4` bytes; and the
returned in-memory buffer is entirely zero. -/
theorem init_success_write_order_and_zeroing (bus : Bus) (config : Config)
    (data : Data) (hbus : ∀ t, bus t = true)
    (hcap : config.px_buffer_size = IS31FL3741_BUFFER_SIZE)
    (hlen : data.px_buffer.length = config.px_buffer_size) :
    (is31fl3741_init bus true true true config data).2.res = 0
    ∧ (is31fl3741_init bus true true true config data).2.trace.filter
        non_page_select =
        [BusOp.regWrite 0x3f 0xae,
         BusOp.regWrite 0x00 ((config.sws <<< 4) ||| (0x01 <<< 3) ||| 0x01),
         BusOp.regWrite 0x01 config.gcc,
         BusOp.burstWrite 0x00 ((scale_fill config data.px_buffer 0).take 0xb4),
         BusOp.burstWrite 0x00
           (((scale_fill config data.px_buffer 0).drop 0xb4).take 0xab)]
    ∧ ((scale_fill config data.px_buffer 0).take 0xb4).length = 0xb4
    ∧ (((scale_fill config data.px_buffer 0).drop 0xb4).take 0xab).length
        = config.px_buffer_size - 0xb4
    ∧ (is31fl3741_init bus true true true config data).1.px_buffer
        = List.replicate config.px_buffer_size 0 := by
  have hsl : (scale_fill config data.px_buffer 0).length = data.px_buffer.length :=
    scale_fill_length config data.px_buffer 0
  have hin := init_all_ok_eq bus config data hbus
  refine ⟨?_, ?_, ?_, ?_, ?_⟩
  · rw [hin]
  · rw [hin]
    simp [non_page_select, IS31FL3741_REG_PSWL, IS31FL3741_REG_PS]
  · rw [List.length_take, hsl, hlen, hcap]
    unfold IS31FL3741_BUFFER_SIZE
    omega
  · rw [List.length_take, List.length_drop, hsl, hlen, hcap]
    unfold IS31FL3741_BUFFER_SIZE
    omega
  · rw [hin]
    exact zero_loop_full _ _ (by rw [hsl, hlen])

theorem init_success_write_order_and_zeroing_witness :
    (∀ t, busT t = true) ∧ cfg351.px_buffer_size = IS31FL3741_BUFFER_SIZE ∧
      (List.replicate 351 (9 : Nat)).length = cfg351.px_buffer_size ∧
      ((is31fl3741_init busT true true true cfg351
          ⟨List.replicate 351 9⟩).2.res = 0
      ∧ (is31fl3741_init busT true true true cfg351
          ⟨List.replicate 351 9⟩).2.trace.filter non_page_select =
          [BusOp.regWrite 0x3f 0xae,
           BusOp.regWrite 0x00 ((cfg351.sws <<< 4) ||| (0x01 <<< 3) ||| 0x01),
           BusOp.regWrite 0x01 cfg351.gcc,
           BusOp.burstWrite 0x00
             ((scale_fill cfg351 (List.replicate 351 9) 0).take 0xb4),
           BusOp.burstWrite 0x00
             (((scale_fill cfg351 (List.replicate 351 9) 0).drop 0xb4).take 0xab)]
      ∧ ((scale_fill cfg351 (List.replicate 351 9) 0).take 0xb4).length = 0xb4
      ∧ (((scale_fill cfg351 (List.replicate 351 9) 0).drop 0xb4).take 0xab).length
          = cfg351.px_buffer_size - 0xb4
      ∧ (is31fl3741_init busT true true true cfg351
          ⟨List.replicate 351 9⟩).1.px_buffer
          = List.replicate cfg351.px_buffer_size 0) :=
  ⟨fun t => rfl, by decide, by rw [List.length_replicate]; rfl,
    init_success_write_order_and_zeroing busT cfg351 ⟨List.replicate 351 9⟩
      (fun t => rfl) (by decide) (by rw [List.length_replicate]; rfl)⟩

lemma getD_set_self (l : List Nat) (i v d : Nat) (h : i < l.length) :
    (l.set i v).getD i d = v := by
  rw [List.getD_eq_getElem?_getD, List.getElem?_set_self h]
  rfl

lemma getD_set_ne (l : List Nat) {i j : Nat} (v d : Nat) (h : i ≠ j) :
    (l.set i v).getD j d = l.getD j d := by
  rw [List.getD_eq_getElem?_getD, List.getElem?_set_ne h,
    ← List.getD_eq_getElem?_getD]

lemma map_pixels_length (config : Config) (ps : List Pixel) :
    ∀ (buf : List Nat) (j : Nat), (map_pixels config buf ps j).length = buf.length := by
  induction ps with
  | nil => intro buf j; rfl
  | cons p rest ih =>
    intro buf j
    simp only [map_pixels]
    rw [ih]
    simp

lemma map_pixels_unwritten (config : Config) (ps : List Pixel) :
    ∀ (buf : List Nat) (j m d : Nat),
      (∀ t, t < 3 * ps.length → config.rgb_map.getD (j + t) 0 ≠ m) →
      (map_pixels config buf ps j).getD m d = buf.getD m d := by
  induction ps with
  | nil => intro buf j m d _; rfl
  | cons p rest ih =>
    intro buf j m d h
    simp only [List.length_cons] at h
    simp only [map_pixels]
    rw [ih _ (j + 3) m d ?_]
    · have ha : config.rgb_map.getD j 0 ≠ m := by
        have := h 0 (by omega)
        simpa using this
      have hb : config.rgb_map.getD (j + 1) 0 ≠ m := h 1 (by omega)
      have hc : config.rgb_map.getD (j + 2) 0 ≠ m := h 2 (by omega)
      rw [getD_set_ne _ _ _ hc, getD_set_ne _ _ _ hb, getD_set_ne _ _ _ ha]
    · intro t ht
      have := h (t + 3) (by omega)
      rw [show j + 3 + t = j + (t + 3) by omega]
      exact this

lemma map_pixels_written (config : Config) (J : Nat)
    (hinj : ∀ a b, a < J → b < J → a ≠ b →
      config.rgb_map.getD a 0 ≠ config.rgb_map.getD b 0)
    (hbnd : ∀ t, t < J → config.rgb_map.getD t 0 < config.px_buffer_size) :
    ∀ (ps : List Pixel) (buf : List Nat) (j i : Nat),
      buf.length = config.px_buffer_size →
      j + 3 * ps.length ≤ J → i < ps.length →
      ((map_pixels config buf ps j).getD (config.rgb_map.getD (j + 3 * i) 0) 0
          = config.gamma.getD (ps.getD i ⟨0, 0, 0⟩).r 0
      ∧ (map_pixels config buf ps j).getD (config.rgb_map.getD (j + 3 * i + 1) 0) 0
          = config.gamma.getD (ps.getD i ⟨0, 0, 0⟩).g 0
      ∧ (map_pixels config buf ps j).getD (config.rgb_map.getD (j + 3 * i + 2) 0) 0
          = config.gamma.getD (ps.getD i ⟨0, 0, 0⟩).b 0) := by
  intro ps
  induction ps with
  | nil =>
    intro buf j i _ _ hi
    exact absurd hi (by simp)
  | cons p rest ih =>
    intro buf j i hlen hJ hi
    simp only [List.length_cons] at hJ hi
    simp only [map_pixels]
    cases i with
    | zero =>
      have hno : ∀ t, t < 3 * rest.length →
          config.rgb_map.getD (j + 3 + t) 0 ≠ config.rgb_map.getD j 0 :=
        fun t ht => hinj (j + 3 + t) j (by omega) (by omega) (by omega)
      have hno1 : ∀ t, t < 3 * rest.length →
          config.rgb_map.getD (j + 3 + t) 0 ≠ config.rgb_map.getD (j + 1) 0 :=
        fun t ht => hinj (j + 3 + t) (j + 1) (by omega) (by omega) (by omega)
      have hno2 : ∀ t, t < 3 * rest.length →
          config.rgb_map.getD (j + 3 + t) 0 ≠ config.rgb_map.getD (j + 2) 0 :=
        fun t ht => hinj (j + 3 + t) (j + 2) (by omega) (by omega) (by omega)
      refine ⟨?_, ?_, ?_⟩
      · simp only [Nat.mul_zero, Nat.add_zero, List.getD_cons_zero]
        rw [map_pixels_unwritten config rest _ (j + 3) _ 0 hno]
        rw [getD_set_ne _ _ _ (hinj (j + 2) j (by omega) (by omega) (by omega))]
        rw [getD_set_ne _ _ _ (hinj (j + 1) j (by omega) (by omega) (by omega))]
        exact getD_set_self _ _ _ _ (by rw [hlen]; exact hbnd j (by omega))
      · simp only [Nat.mul_zero, Nat.add_zero, List.getD_cons_zero]
        rw [map_pixels_unwritten config rest _ (j + 3) _ 0 hno1]
        rw [getD_set_ne _ _ _ (hinj (j + 2) (j + 1) (by omega) (by omega) (by omega))]
        exact getD_set_self _ _ _ _
          (by rw [List.length_set, hlen]; exact hbnd (j + 1) (by omega))
      · simp only [Nat.mul_zero, Nat.add_zero, List.getD_cons_zero]
        rw [map_pixels_unwritten config rest _ (j + 3) _ 0 hno2]
        exact getD_set_self _ _ _ _
          (by rw [List.length_set, List.length_set, hlen]
              exact hbnd (j + 2) (by omega))
    | succ n =>
      have hlen3 : ((((buf.set (config.rgb_map.getD j 0)
          (config.gamma.getD p.r 0)).set (config.rgb_map.getD (j + 1) 0)
          (config.gamma.getD p.g 0)).set (config.rgb_map.getD (j + 2) 0)
          (config.gamma.getD p.b 0))).length = config.px_buffer_size := by
        simp [hlen]
      have H := ih _ (j + 3) n hlen3 (by omega) (by omega)
      have e1 : j + 3 + 3 * n = j + 3 * (n + 1) := by omega
      rw [← e1]
      simpa using H

/-- Claim C1: for `3n ≤ capacity` (with no size overflow possible since the
capacity fits the size type), `update_rgb` writes, for each pixel `i`, the
gamma-corrected red, green and blue intensities at the buffer offsets given
by channel-map entries `3i`, `3i+1`, `3i+2`; every buffer offset not named
by the first `3n` map entries keeps its old value (exactly `3n` bytes are
written when the map entries are distinct); and the full updated buffer is
delegated to `update_channels` with `count = capacity`. -/
theorem update_rgb_maps_pixels_and_delegates (w : Nat) (bus : Bus) (k : Nat)
    (config : Config) (data : Data) (pixels : List Pixel) (num_pixels : Nat)
    (hn : num_pixels = pixels.length)
    (hcap : 3 * num_pixels ≤ config.px_buffer_size)
    (hw : config.px_buffer_size < 2 ^ w)
    (hlen : data.px_buffer.length = config.px_buffer_size)
    (hinj : ∀ a, a < 3 * num_pixels → ∀ b, b < 3 * num_pixels → a ≠ b →
      config.rgb_map.getD a 0 ≠ config.rgb_map.getD b 0)
    (hbnd : ∀ t, t < 3 * num_pixels →
      config.rgb_map.getD t 0 < config.px_buffer_size) :
    is31fl3741_strip_update_rgb w bus k config data pixels num_pixels =
      is31fl3741_strip_update_channels bus k config
        ⟨map_pixels config data.px_buffer (pixels.take num_pixels) 0⟩
        (map_pixels config data.px_buffer (pixels.take num_pixels) 0)
        config.px_buffer_size
    ∧ (∀ i, i < num_pixels →
        ((map_pixels config data.px_buffer (pixels.take num_pixels) 0).getD
            (config.rgb_map.getD (3 * i) 0) 0
          = config.gamma.getD (pixels.getD i ⟨0, 0, 0⟩).r 0
        ∧ (map_pixels config data.px_buffer (pixels.take num_pixels) 0).getD
            (config.rgb_map.getD (3 * i + 1) 0) 0
          = config.gamma.getD (pixels.getD i ⟨0, 0, 0⟩).g 0
        ∧ (map_pixels config data.px_buffer (pixels.take num_pixels) 0).getD
            (config.rgb_map.getD (3 * i + 2) 0) 0
          = config.gamma.getD (pixels.getD i ⟨0, 0, 0⟩).b 0))
    ∧ (∀ m, m < config.px_buffer_size →
        (∀ t, t < 3 * num_pixels → config.rgb_map.getD t 0 ≠ m) →
        (map_pixels config data.px_buffer (pixels.take num_pixels) 0).getD m 0
          = data.px_buffer.getD m 0) := by
  have htake : pixels.take num_pixels = pixels := by
    rw [hn, List.take_length]
  refine ⟨?_, ?_, ?_⟩
  · have hok : num_pixels_ok w config num_pixels = true := by
      unfold num_pixels_ok size_mul_overflow
      have h1 : num_pixels * 3 < 2 ^ w := by omega
      simp [Nat.not_le.mpr h1, Nat.mod_eq_of_lt h1]
      omega
    simp [is31fl3741_strip_update_rgb, hok]
  · intro i hi
    rw [htake]
    have H := map_pixels_written config (3 * num_pixels)
      (fun a b ha hb => hinj a ha b hb) hbnd pixels
      data.px_buffer 0 i hlen (by omega) (by omega)
    simpa using H
  · intro m hm hnot
    rw [htake]
    exact map_pixels_unwritten config pixels data.px_buffer 0 m 0
      (fun t ht => by simpa using hnot t (by omega))

/-- A six-channel configuration whose channel map is the reversal
permutation, with a three-entry gamma table. -/
def cfgW : Config :=
  { px_buffer_size := 6, gcc := 0, sws := 0, rgb_map := [5, 4, 3, 2, 1, 0]
    gamma := [10, 20, 30], scaling_red := 0, scaling_green := 0
    scaling_blue := 0 }

/-- Two concrete pixels used by the C1 witness. -/
def pxW : List Pixel := [⟨1, 2, 0⟩, ⟨0, 1, 2⟩]

theorem update_rgb_maps_pixels_and_delegates_witness :
    (2 : Nat) = pxW.length ∧ 3 * 2 ≤ cfgW.px_buffer_size ∧
      cfgW.px_buffer_size < 2 ^ 9 ∧
      ([9, 9, 9, 9, 9, 9] : List Nat).length = cfgW.px_buffer_size ∧
      (∀ a, a < 3 * 2 → ∀ b, b < 3 * 2 → a ≠ b →
        cfgW.rgb_map.getD a 0 ≠ cfgW.rgb_map.getD b 0) ∧
      (∀ t, t < 3 * 2 → cfgW.rgb_map.getD t 0 < cfgW.px_buffer_size) ∧
      (is31fl3741_strip_update_rgb 9 busT 0 cfgW ⟨[9, 9, 9, 9, 9, 9]⟩ pxW 2 =
        is31fl3741_strip_update_channels busT 0 cfgW
          ⟨map_pixels cfgW [9, 9, 9, 9, 9, 9] (pxW.take 2) 0⟩
          (map_pixels cfgW [9, 9, 9, 9, 9, 9] (pxW.take 2) 0)
          cfgW.px_buffer_size
      ∧ (∀ i, i < 2 →
          ((map_pixels cfgW [9, 9, 9, 9, 9, 9] (pxW.take 2) 0).getD
              (cfgW.rgb_map.getD (3 * i) 0) 0
            = cfgW.gamma.getD (pxW.getD i ⟨0, 0, 0⟩).r 0
          ∧ (map_pixels cfgW [9, 9, 9, 9, 9, 9] (pxW.take 2) 0).getD
              (cfgW.rgb_map.getD (3 * i + 1) 0) 0
            = cfgW.gamma.getD (pxW.getD i ⟨0, 0, 0⟩).g 0
          ∧ (map_pixels cfgW [9, 9, 9, 9, 9, 9] (pxW.take 2) 0).getD
              (cfgW.rgb_map.getD (3 * i + 2) 0) 0
            = cfgW.gamma.getD (pxW.getD i ⟨0, 0, 0⟩).b 0))
      ∧ (∀ m, m < cfgW.px_buffer_size →
          (∀ t, t < 3 * 2 → cfgW.rgb_map.getD t 0 ≠ m) →
          (map_pixels cfgW [9, 9, 9, 9, 9, 9] (pxW.take 2) 0).getD m 0
            = ([9, 9, 9, 9, 9, 9] : List Nat).getD m 0)) :=
  ⟨by decide, by decide, by decide, by decide, by decide, by decide,
    update_rgb_maps_pixels_and_delegates 9 busT 0 cfgW ⟨[9, 9, 9, 9, 9, 9]⟩ pxW 2
      (by decide) (by decide) (by decide) (by decide) (by decide) (by decide)⟩
